import Mathlib

/-!
Verification of `aviary/interface/reports.py` (mission / subsystem report
generation) against its natural-language specification.

The embedding models:
  * the host problem object through the two capabilities the source uses,
    `get_val` and `phase_info` (structure `Prob`);
  * Python / numpy values returned by `get_val` (`PyVal`: a numpy scalar,
    a 1-D array, or a 2-D array), Python exceptions (`PyErr`), Python
    negative-index subscripting (`pyIndexList`, `PyVal.getItem`) and
    numpy elementwise subtraction (`PyVal.sub`);
  * the two nested helpers `_get_phase_value` / `_get_phase_diff` and the
    body of `mission_report`, with exceptions as `Except PyErr`; the
    written markdown file is modelled structurally as a `List DocItem`
    produced only when `mission_report` returns `.ok` (the source opens
    the file only after the totals are computed, so any exception raised
    earlier means no file is written);
  * the directory-creation part of `subsystem_report` over a filesystem
    state given as the list of existing directories.

Numeric values are integers (the source computes only subtractions and
comparisons of endpoint samples, so ℤ is an exact stand-in for the
floating-point values; no claim depends on fractional quantities).
-/

/-- Python exceptions distinguished by the source's `try`/`except` blocks. -/
inductive PyErr where
  | keyError
  | typeError
  | indexError
  | valueError
  | nameError
deriving DecidableEq, Repr

/-- A value returned by `prob.get_val`: a numpy scalar, a 1-D array, or a
2-D array. -/
inductive PyVal where
  | scalar (x : ℤ)
  | arr1 (xs : List ℤ)
  | arr2 (xss : List (List ℤ))
deriving DecidableEq, Repr

/-- The `indices` argument of `get_val`: Python `None`, a single integer, or
a list of integers (the source passes `None` by default, `0`, `-1`,
`[0, -1]` and `[-1, 0]`). -/
inductive Indices where
  | noneIdx
  | intIdx (i : Int)
  | listIdx (l : List Int)
deriving DecidableEq, Repr

/-- Python sequence indexing with negative-index wrap-around:
`xs[i]` is `xs[i]` for `0 ≤ i < len`, `xs[len + i]` for `-len ≤ i < 0`,
and an `IndexError` (here `none`) otherwise. -/
def pyIndexList {α : Type} (xs : List α) (i : Int) : Option α :=
  if 0 ≤ i then xs.get? i.toNat
  else
    let j : Int := (xs.length : Int) + i
    if 0 ≤ j then xs.get? j.toNat else none

/-- Subscripting `v[i]` on a `get_val` result: indexing a 1-D array yields a
scalar, indexing a 2-D array yields a row; a numpy scalar is not
subscriptable (`TypeError`); an out-of-range index is an `IndexError`. -/
def PyVal.getItem : PyVal → Int → Except PyErr PyVal
  | .scalar _, _ => .error .typeError
  | .arr1 xs, i =>
      match pyIndexList xs i with
      | some x => .ok (.scalar x)
      | none => .error .indexError
  | .arr2 xss, i =>
      match pyIndexList xss i with
      | some r => .ok (.arr1 r)
      | none => .error .indexError

/-- numpy subtraction on the shapes the source can produce: scalar−scalar,
elementwise same-shape array subtraction, and scalar broadcasting.  A shape
mismatch raises; mixed-rank broadcasting is never reached by the source
(both operands of every subtraction come from the same query shape) and is
conservatively mapped to an error. -/
def PyVal.sub : PyVal → PyVal → Except PyErr PyVal
  | .scalar a, .scalar b => .ok (.scalar (a - b))
  | .arr1 a, .arr1 b =>
      if a.length = b.length then
        .ok (.arr1 (List.zipWith (fun x y => x - y) a b))
      else .error .valueError
  | .arr2 a, .arr2 b =>
      if a.map List.length = b.map List.length then
        .ok (.arr2 (List.zipWith (fun r s => List.zipWith (fun x y => x - y) r s) a b))
      else .error .valueError
  | .scalar a, .arr1 b => .ok (.arr1 (b.map fun y => a - y))
  | .arr1 a, .scalar b => .ok (.arr1 (a.map fun x => x - b))
  | .scalar a, .arr2 b => .ok (.arr2 (b.map fun r => r.map fun y => a - y))
  | .arr2 a, .scalar b => .ok (.arr2 (a.map fun r => r.map fun x => x - b))
  | _, _ => .error .valueError

/-- Python `a - b` where either operand may be `None` (a `None` operand is a
`TypeError`). -/
def pySubO : Option PyVal → Option PyVal → Except PyErr PyVal
  | some a, some b => a.sub b
  | _, _ => .error .typeError

/-- Python `v[i]` where `v` may be `None` (`None` is not subscriptable). -/
def pySubscript (v : Option PyVal) (i : Int) : Except PyErr PyVal :=
  match v with
  | none => .error .typeError
  | some pv => pv.getItem i

/-- The host problem object, through the two capabilities `mission_report`
uses: `get_val path units indices` and the ordered phase names
`phase_info`. -/
structure Prob where
  get_val : String → String → Indices → Except PyErr PyVal
  phase_info : List String

/-- The time-series variable path `"traj.phase.timeseries.var"`. -/
def tsPath (traj phase var_name : String) : String :=
  traj ++ "." ++ phase ++ ".timeseries." ++ var_name

/-- The scalar variable path `"traj.phase.var"`. -/
def scPath (traj phase var_name : String) : String :=
  traj ++ "." ++ phase ++ "." ++ var_name

/-- Helper `_get_phase_value` from `mission_report`: try the time-series path; on
`KeyError` try the scalar path; if the scalar read raises `TypeError`
substitute a read of the time-series `time` variable (whose own failure is
not caught and propagates); if the scalar read raises `KeyError` the result
is Python `None` (`.ok none`).  Any other exception propagates. -/
def _get_phase_value (prob : Prob) (traj phase var_name units : String)
    (indices : Indices) : Except PyErr (Option PyVal) :=
  match prob.get_val (tsPath traj phase var_name) units indices with
  | .ok v => .ok (some v)
  | .error .keyError =>
      match prob.get_val (scPath traj phase var_name) units indices with
      | .ok v => .ok (some v)
      | .error .typeError =>
          Except.map some (prob.get_val (tsPath traj phase "time") units indices)
      | .error .keyError => .ok none
      | .error e => .error e
  | .error e => .error e

/-- Helper `_get_phase_diff` from `mission_report`: retrieve the variable, then
`diff = vals[-1] - vals[0]`; if the difference is a numpy array take its
first element; a `None` retrieval gives a `None` diff. -/
def _get_phase_diff (prob : Prob) (traj phase var_name units : String)
    (indices : Indices) : Except PyErr (Option PyVal) :=
  match _get_phase_value prob traj phase var_name units indices with
  | .error e => .error e
  | .ok none => .ok none
  | .ok (some vals) =>
      match vals.getItem (-1) with
      | .error e => .error e
      | .ok a =>
          match vals.getItem 0 with
          | .error e => .error e
          | .ok b =>
              match a.sub b with
              | .error e => .error e
              | .ok diff =>
                  match diff with
                  | .scalar x => .ok (some (.scalar x))
                  | d => match d.getItem 0 with
                         | .error e => .error e
                         | .ok d0 => .ok (some d0)

/-- An entry of a named value table: label, value (possibly Python `None`),
unit string. -/
abbrev NVEntry : Type := String × Option PyVal × String

/-- Modelled from the spec: `NamedValues` (`aviary.utils.named_values`, not
under src/) is an ordered mapping from a label to a (value, unit string)
pair; insertion order is preserved and keys are unique. -/
structure NamedValues where
  entries : List NVEntry

/-- Ordered-dict style insert: update an existing key in place, else append. -/
def dictInsert {α : Type} : List (String × α) → String → α → List (String × α)
  | [], k, v => [(k, v)]
  | (k', v') :: rest, k, v =>
      if k' = k then (k, v) :: rest else (k', v') :: dictInsert rest k v

/-- Modelled from the spec: `NamedValues.set_val` records a (value, unit)
pair under a label, keeping insertion order. -/
def NamedValues.set_val (nv : NamedValues) (k : String) (v : Option PyVal)
    (u : String) : NamedValues :=
  ⟨dictInsert nv.entries k (v, u)⟩

/-- First association for a key in an association list. -/
def assocFind {α : Type} : List (String × α) → String → Option α
  | [], _ => none
  | (k', v) :: rest, k => if k' = k then some v else assocFind rest k

/-- A piece of the written markdown document: a `#` header, a `##` header,
or a rendered variable table. -/
inductive DocItem where
  | header1 (s : String)
  | header2 (s : String)
  | table (rows : List NVEntry)
deriving DecidableEq

/-- Modelled from the spec: `write_markdown_variable_table`
(`aviary.interface.utils.markdown_utils`, not under src/) renders one table
row per requested name, with the value looked up in the named value table
and the unit string taken from the supplied metadata. -/
def write_markdown_variable_table (outputs : NamedValues) (names : List String)
    (metaUnits : List (String × String)) : List NVEntry :=
  names.map fun n =>
    (n,
     (match assocFind outputs.entries n with
      | some pr => pr.1
      | none => none),
     (assocFind metaUnits n).getD "")

/-- The local variables `mission_report`'s loop assigns: the per-phase data
dict, and the six initial/final trackers (`none` = not yet assigned; the
time trackers hold the raw `_get_phase_value` result, which may itself be
Python `None`, hence the nested `Option`). -/
structure LoopState where
  data : List (String × NamedValues)
  initial_mass : Option PyVal
  initial_time : Option (Option PyVal)
  initial_range : Option PyVal
  final_mass : Option PyVal
  final_time : Option (Option PyVal)
  final_range : Option PyVal

/-- The loop state before the first iteration: nothing assigned. -/
def initSt : LoopState := ⟨[], none, none, none, none, none, none⟩

/-- The `idx == 0` branch: `initial_mass = _get_phase_value(...)[0]`,
`initial_time = _get_phase_value(...)` (no subscript), and
`initial_range = _get_phase_value(...)[0]`, each read at index 0. -/
def readInitials (prob : Prob) (phase : String) (st : LoopState) :
    Except PyErr LoopState :=
  match _get_phase_value prob "traj" phase "mass" "lbm" (.intIdx 0) with
  | .error e => .error e
  | .ok vm =>
  match pySubscript vm 0 with
  | .error e => .error e
  | .ok im =>
  match _get_phase_value prob "traj" phase "t" "min" (.intIdx 0) with
  | .error e => .error e
  | .ok it =>
  match _get_phase_value prob "traj" phase "distance" "nmi" (.intIdx 0) with
  | .error e => .error e
  | .ok vr =>
  match pySubscript vr 0 with
  | .error e => .error e
  | .ok ir =>
      .ok { st with initial_mass := some im, initial_time := some it,
                    initial_range := some ir }

/-- The per-iteration final-value reads, at index -1 (run for every phase;
the last iteration's values survive). -/
def readFinals (prob : Prob) (phase : String) (st : LoopState) :
    Except PyErr LoopState :=
  match _get_phase_value prob "traj" phase "mass" "lbm" (.intIdx (-1)) with
  | .error e => .error e
  | .ok vm =>
  match pySubscript vm 0 with
  | .error e => .error e
  | .ok fm =>
  match _get_phase_value prob "traj" phase "t" "min" (.intIdx (-1)) with
  | .error e => .error e
  | .ok ft =>
  match _get_phase_value prob "traj" phase "distance" "nmi" (.intIdx (-1)) with
  | .error e => .error e
  | .ok vr =>
  match pySubscript vr 0 with
  | .error e => .error e
  | .ok fr =>
      .ok { st with final_mass := some fm, final_time := some ft,
                    final_range := some fr }

/-- The per-phase segment table: Fuel Burn [lbm], Elapsed Time [min],
Ground Distance [nmi]. -/
def mkSegOutputs (fuel_burn time dist : Option PyVal) : NamedValues :=
  (((NamedValues.mk []).set_val "Fuel Burn" fuel_burn "lbm").set_val
      "Elapsed Time" time "min").set_val "Ground Distance" dist "nmi"

/-- One iteration of `mission_report`'s phase loop: compute the three deltas
(mass queried at `[-1, 0]`, time and distance at the default `[0, -1]`),
capture initial values when `idx == 0`, store the segment table in the data
dict, and capture final values. -/
def phaseStep (prob : Prob) (st : LoopState) (idx : Nat) (phase : String) :
    Except PyErr LoopState :=
  match _get_phase_diff prob "traj" phase "mass" "lbm" (.listIdx [-1, 0]) with
  | .error e => .error e
  | .ok fuel_burn =>
  match _get_phase_diff prob "traj" phase "t" "min" (.listIdx [0, -1]) with
  | .error e => .error e
  | .ok time =>
  match _get_phase_diff prob "traj" phase "distance" "nmi" (.listIdx [0, -1]) with
  | .error e => .error e
  | .ok dist =>
  match (if idx = 0 then readInitials prob phase st else .ok st) with
  | .error e => .error e
  | .ok st1 =>
      readFinals prob phase
        { st1 with data := dictInsert st1.data phase (mkSegOutputs fuel_burn time dist) }

/-- The phase loop, threading the iteration index. -/
def runPhases (prob : Prob) : Nat → List String → LoopState →
    Except PyErr LoopState
  | _, [], st => .ok st
  | idx, p :: ps, st =>
      match phaseStep prob st idx p with
      | .error e => .error e
      | .ok st1 => runPhases prob (idx + 1) ps st1

/-- The totals table: Total Fuel Burn = initial − final mass, Total Time =
final − initial time, Total Ground Distance = final − initial distance. -/
def mkTotals (tfb tt tgd : PyVal) : NamedValues :=
  (((NamedValues.mk []).set_val "Total Fuel Burn" (some tfb) "lbm").set_val
      "Total Time" (some tt) "min").set_val "Total Ground Distance" (some tgd) "nmi"

/-- Row names of the totals table. -/
def totalNames : List String :=
  ["Total Fuel Burn", "Total Time", "Total Ground Distance"]

/-- Units metadata of the totals table. -/
def totalMeta : List (String × String) :=
  [("Total Fuel Burn", "lbm"), ("Total Time", "min"),
   ("Total Ground Distance", "nmi")]

/-- Row names of each segment table. -/
def segNames : List String := ["Fuel Burn", "Elapsed Time", "Ground Distance"]

/-- Units metadata of each segment table. -/
def segMeta : List (String × String) :=
  [("Fuel Burn", "lbm"), ("Elapsed Time", "min"), ("Ground Distance", "nmi")]

/-- The `MISSION SEGMENTS` body: one `##` header plus one rendered table per
phase, in data-dict (insertion) order. -/
def segmentItems : List (String × NamedValues) → List DocItem
  | [] => []
  | (p, nv) :: rest =>
      .header2 p :: .table (write_markdown_variable_table nv segNames segMeta)
        :: segmentItems rest

/-- The `mission_report` body: run the phase loop; referencing a loop-assigned local
that was never assigned (empty `phase_info`) raises `NameError`; compute the
three totals (whose subtractions may themselves raise); only then is the
report file opened and the document written — an `.ok` result is the
document content of `mission_summary.md`, an `.error` means the exception
propagated before any file was created. -/
def mission_report (prob : Prob) : Except PyErr (List DocItem) :=
  match runPhases prob 0 prob.phase_info initSt with
  | .error e => .error e
  | .ok st =>
  match st.initial_mass, st.initial_time, st.initial_range,
        st.final_mass, st.final_time, st.final_range with
  | some im, some it, some ir, some fm, some ft, some fr =>
      (match im.sub fm with
       | .error e => .error e
       | .ok tfb =>
       match pySubO ft it with
       | .error e => .error e
       | .ok tt =>
       match fr.sub ir with
       | .error e => .error e
       | .ok tgd =>
           .ok (.header1 "MISSION SUMMARY"
             :: .table (write_markdown_variable_table (mkTotals tfb tt tgd)
                          totalNames totalMeta)
             :: .header1 "MISSION SEGMENTS"
             :: segmentItems st.data))
  | _, _, _, _, _, _ => .error .nameError

/-- Directory creation, `Path.mkdir` with `exist_ok=True`, over a filesystem modelled as the list
of existing directories: create the directory when absent, succeed silently
when present. -/
def mkdir_exist_ok (fs : List String) (dir : String) : List String :=
  if dir ∈ fs then fs else dir :: fs

/-- The directory-creation effect of `subsystem_report`: make (or reuse) the
`subsystems` folder under the reports directory.  The per-subsystem fan-out
only delegates to external builders and touches no further state here. -/
def subsystem_report_dirs (fs : List String) (reports_dir : String) :
    List String :=
  mkdir_exist_ok fs (reports_dir ++ "/subsystems")

/-! ### Concrete problems used by witnesses and counterexamples

`seriesVal` / `seriesVal1` model how `get_val` answers index queries against
a fixed underlying time series: a 2-D `(n, 1)` series (the usual shape of a
timeseries output) and a 1-D series.  They serve only to build concrete
`Prob` instances; the report logic above never depends on them. -/

/-- Select rows of a 2-D series by a list of (possibly negative) indices. -/
def selectRows (rows : List (List ℤ)) : List Int → Except PyErr (List (List ℤ))
  | [] => .ok []
  | i :: is =>
      match pyIndexList rows i with
      | none => .error .indexError
      | some r =>
          match selectRows rows is with
          | .error e => .error e
          | .ok rs => .ok (r :: rs)

/-- Index query against a fixed 2-D `(n, 1)`-shaped series. -/
def seriesVal (rows : List (List ℤ)) : Indices → Except PyErr PyVal
  | .noneIdx => .ok (.arr2 rows)
  | .intIdx i =>
      match pyIndexList rows i with
      | some r => .ok (.arr1 r)
      | none => .error .indexError
  | .listIdx l =>
      match selectRows rows l with
      | .error e => .error e
      | .ok rs => .ok (.arr2 rs)

/-- Select elements of a 1-D series by a list of indices. -/
def selectElems (xs : List ℤ) : List Int → Except PyErr (List ℤ)
  | [] => .ok []
  | i :: is =>
      match pyIndexList xs i with
      | none => .error .indexError
      | some x =>
          match selectElems xs is with
          | .error e => .error e
          | .ok ys => .ok (x :: ys)

/-- Index query against a fixed 1-D series. -/
def seriesVal1 (xs : List ℤ) : Indices → Except PyErr PyVal
  | .noneIdx => .ok (.arr1 xs)
  | .intIdx i =>
      match pyIndexList xs i with
      | some x => .ok (.scalar x)
      | none => .error .indexError
  | .listIdx l =>
      match selectElems xs l with
      | .error e => .error e
      | .ok ys => .ok (.arr1 ys)

/-- A two-phase problem (climb then cruise) whose timeseries paths all
resolve: mass and distance are `(3, 1)` series, time is a 1-D series. -/
def okGet : String → String → Indices → Except PyErr PyVal := fun path _ idx =>
  if path = "traj.climb.timeseries.mass" then
    seriesVal [[1000], [900], [800]] idx
  else if path = "traj.climb.timeseries.t" then
    seriesVal1 [0, 5, 10] idx
  else if path = "traj.climb.timeseries.distance" then
    seriesVal [[0], [50], [100]] idx
  else if path = "traj.cruise.timeseries.mass" then
    seriesVal [[800], [700], [600]] idx
  else if path = "traj.cruise.timeseries.t" then
    seriesVal1 [10, 20, 30] idx
  else if path = "traj.cruise.timeseries.distance" then
    seriesVal [[100], [300], [500]] idx
  else .error .keyError

/-- The two-phase concrete problem. -/
def okProb : Prob := ⟨okGet, ["climb", "cruise"]⟩

/-- The same problem restricted to a single phase. -/
def okProb1 : Prob := ⟨okGet, ["climb"]⟩

/-- The same problem with an empty phase sequence. -/
def emptyProb : Prob := ⟨okGet, []⟩

/-- A problem whose `climb` phase reads hit the fallback chain's dead end:
the mass timeseries path is missing, the scalar mass read raises
`TypeError`, and the substituted time read's path is missing too. -/
def c1get : String → String → Indices → Except PyErr PyVal := fun path _ _ =>
  if path = "traj.climb.mass" then .error .typeError
  else .error .keyError

/-- Concrete problem exercising the uncaught time-substitution failure. -/
def c1prob : Prob := ⟨c1get, ["climb"]⟩

/-- Like `okProb`, but every mass path of the `cruise` phase is missing
(both the timeseries and the scalar read raise `KeyError`). -/
def c4get : String → String → Indices → Except PyErr PyVal := fun path units idx =>
  if path = "traj.cruise.timeseries.mass" then .error .keyError
  else if path = "traj.cruise.mass" then .error .keyError
  else okGet path units idx

/-- Concrete problem with the cruise mass permanently missing. -/
def c4prob : Prob := ⟨c4get, ["climb", "cruise"]⟩

/-- The document `mission_report` produces on `okProb`. -/
def okDoc : List DocItem :=
  [.header1 "MISSION SUMMARY",
   .table [("Total Fuel Burn", some (.scalar 400), "lbm"),
           ("Total Time", some (.scalar 30), "min"),
           ("Total Ground Distance", some (.scalar 500), "nmi")],
   .header1 "MISSION SEGMENTS",
   .header2 "climb",
   .table [("Fuel Burn", some (.scalar 200), "lbm"),
           ("Elapsed Time", some (.scalar 10), "min"),
           ("Ground Distance", some (.scalar 100), "nmi")],
   .header2 "cruise",
   .table [("Fuel Burn", some (.scalar 200), "lbm"),
           ("Elapsed Time", some (.scalar 20), "min"),
           ("Ground Distance", some (.scalar 400), "nmi")]]

/-- The fixed unit for each metric label the report emits. -/
def metricUnit : String → String
  | "Fuel Burn" => "lbm"
  | "Total Fuel Burn" => "lbm"
  | "Elapsed Time" => "min"
  | "Total Time" => "min"
  | "Ground Distance" => "nmi"
  | "Total Ground Distance" => "nmi"
  | _ => ""

/-- A table row carries a non-empty unit that matches its metric's fixed
unit. -/
def rowUnitOK (r : NVEntry) : Bool :=
  !(r.2.2 == "") && (r.2.2 == metricUnit r.1)

/-- Header items are trivially fine; table items need every row's unit to
check out. -/
def itemUnitsOK : DocItem → Bool
  | .table rows => rows.all rowUnitOK
  | _ => true

/-- Every table row of the document carries the fixed non-empty unit. -/
def docUnitsOK (doc : List DocItem) : Bool := doc.all itemUnitsOK

/-- The totals table shape: exactly three rows, with the fixed labels and
units. -/
def totalsRowsShape (rows : List NVEntry) : Prop :=
  ∃ v1 v2 v3, rows =
    [("Total Fuel Burn", v1, "lbm"), ("Total Time", v2, "min"),
     ("Total Ground Distance", v3, "nmi")]

/-- The segments body shape: one `##` header plus one three-row table per
phase, in phase order. -/
def segItemsShape : List String → List DocItem → Prop
  | [], [] => True
  | p :: ps, .header2 q :: .table rows :: rest =>
      q = p
        ∧ (∃ v1 v2 v3, rows =
             [("Fuel Burn", v1, "lbm"), ("Elapsed Time", v2, "min"),
              ("Ground Distance", v3, "nmi")])
        ∧ segItemsShape ps rest
  | _, _ => False

/-! ### Helper lemmas -/

/-- Python `xs[-1]` is the last element. -/
theorem pyIndexList_neg_one {α : Type} (xs : List α) :
    pyIndexList xs (-1) = xs.getLast? := by
  unfold pyIndexList
  cases xs with
  | nil => rfl
  | cons x l =>
    rw [List.getLast?_eq_getElem?]
    have h0 : ¬ (0 : Int) ≤ -1 := by norm_num
    have h1 : (0 : Int) ≤ ((x :: l).length : Int) + -1 := by
      simp only [List.length_cons]
      omega
    simp only [h0, if_false, h1, if_true]
    rw [List.get?_eq_getElem?]
    congr 1
    simp only [List.length_cons]
    omega

/-- Python `xs[0]` is the head. -/
theorem pyIndexList_zero {α : Type} (x : α) (l : List α) :
    pyIndexList (x :: l) 0 = some x := rfl

/-- A retrieval of a 2-D index pair `[[a], [b]]` gives the delta `b - a`
(the array difference's first element). -/
theorem diff_of_arr2_pair (prob : Prob) (traj phase var_name units : String)
    (indices : Indices) (a b : ℤ)
    (h : _get_phase_value prob traj phase var_name units indices
           = .ok (some (.arr2 [[a], [b]]))) :
    _get_phase_diff prob traj phase var_name units indices
      = .ok (some (.scalar (b - a))) := by
  unfold _get_phase_diff
  rw [h]
  rfl

/-- A retrieval of a 1-D index pair `[x, y]` gives the scalar delta `y - x`. -/
theorem diff_of_arr1_pair (prob : Prob) (traj phase var_name units : String)
    (indices : Indices) (x y : ℤ)
    (h : _get_phase_value prob traj phase var_name units indices
           = .ok (some (.arr1 [x, y]))) :
    _get_phase_diff prob traj phase var_name units indices
      = .ok (some (.scalar (y - x))) := by
  unfold _get_phase_diff
  rw [h]
  rfl

/-- With pinned reads, `readInitials` assigns exactly the three initial
trackers. -/
theorem readInitials_eq (prob : Prob) (p : String) (st : LoopState)
    (im ir : ℤ) (itv : Option PyVal)
    (hm : _get_phase_value prob "traj" p "mass" "lbm" (.intIdx 0)
            = .ok (some (.arr1 [im])))
    (ht : _get_phase_value prob "traj" p "t" "min" (.intIdx 0) = .ok itv)
    (hr : _get_phase_value prob "traj" p "distance" "nmi" (.intIdx 0)
            = .ok (some (.arr1 [ir]))) :
    readInitials prob p st
      = .ok { st with initial_mass := some (.scalar im),
                      initial_time := some itv,
                      initial_range := some (.scalar ir) } := by
  unfold readInitials
  rw [hm, ht, hr]
  rfl

/-- With pinned reads, `readFinals` assigns exactly the three final
trackers. -/
theorem readFinals_eq (prob : Prob) (p : String) (st : LoopState)
    (fm fr : ℤ) (ftv : Option PyVal)
    (hm : _get_phase_value prob "traj" p "mass" "lbm" (.intIdx (-1))
            = .ok (some (.arr1 [fm])))
    (ht : _get_phase_value prob "traj" p "t" "min" (.intIdx (-1)) = .ok ftv)
    (hr : _get_phase_value prob "traj" p "distance" "nmi" (.intIdx (-1))
            = .ok (some (.arr1 [fr]))) :
    readFinals prob p st
      = .ok { st with final_mass := some (.scalar fm),
                      final_time := some ftv,
                      final_range := some (.scalar fr) } := by
  unfold readFinals
  rw [hm, ht, hr]
  rfl

/-- Running `readFinals` never touches the data dict or the initial trackers. -/
theorem readFinals_preserves (prob : Prob) (p : String) (st st' : LoopState)
    (h : readFinals prob p st = .ok st') :
    st'.data = st.data ∧ st'.initial_mass = st.initial_mass
      ∧ st'.initial_time = st.initial_time
      ∧ st'.initial_range = st.initial_range := by
  unfold readFinals at h
  repeat' split at h
  all_goals cases h
  exact ⟨rfl, rfl, rfl, rfl⟩

/-- Running `readInitials` never touches the data dict or the final trackers. -/
theorem readInitials_preserves (prob : Prob) (p : String) (st st' : LoopState)
    (h : readInitials prob p st = .ok st') :
    st'.data = st.data ∧ st'.final_mass = st.final_mass
      ∧ st'.final_time = st.final_time
      ∧ st'.final_range = st.final_range := by
  unfold readInitials at h
  repeat' split at h
  all_goals cases h
  exact ⟨rfl, rfl, rfl, rfl⟩

/-- A successful loop iteration decomposes into its five stages. -/
theorem phaseStep_ok_destruct (prob : Prob) (st : LoopState) (idx : Nat)
    (p : String) (st' : LoopState) (h : phaseStep prob st idx p = .ok st') :
    ∃ fb t r st1,
      (if idx = 0 then readInitials prob p st else .ok st) = .ok st1
        ∧ readFinals prob p
            { st1 with data := dictInsert st1.data p (mkSegOutputs fb t r) }
            = .ok st' := by
  unfold phaseStep at h
  cases h1 : _get_phase_diff prob "traj" p "mass" "lbm" (.listIdx [-1, 0]) with
  | error e => simp only [h1] at h; exact Except.noConfusion h
  | ok fb =>
  simp only [h1] at h
  cases h2 : _get_phase_diff prob "traj" p "t" "min" (.listIdx [0, -1]) with
  | error e => simp only [h2] at h; exact Except.noConfusion h
  | ok t =>
  simp only [h2] at h
  cases h3 : _get_phase_diff prob "traj" p "distance" "nmi" (.listIdx [0, -1]) with
  | error e => simp only [h3] at h; exact Except.noConfusion h
  | ok r =>
  simp only [h3] at h
  cases h4 : (if idx = 0 then readInitials prob p st else .ok st) with
  | error e => simp only [h4] at h; exact Except.noConfusion h
  | ok st1 =>
  simp only [h4] at h
  exact ⟨fb, t, r, st1, rfl, h⟩

/-- An iteration with `idx ≠ 0` leaves the initial trackers unchanged. -/
theorem phaseStep_preserves_initials (prob : Prob) (st : LoopState) (idx : Nat)
    (p : String) (st' : LoopState) (hidx : idx ≠ 0)
    (h : phaseStep prob st idx p = .ok st') :
    st'.initial_mass = st.initial_mass ∧ st'.initial_time = st.initial_time
      ∧ st'.initial_range = st.initial_range := by
  obtain ⟨fb, t, r, st1, h4, h5⟩ := phaseStep_ok_destruct prob st idx p st' h
  rw [if_neg hidx] at h4
  cases h4
  have := readFinals_preserves prob p _ _ h5
  exact ⟨this.2.1, this.2.2.1, this.2.2.2⟩

/-- The `idx = 0` iteration assigns the initial trackers from the first
phase's index-0 reads. -/
theorem phaseStep_initials (prob : Prob) (st : LoopState) (p : String)
    (st' : LoopState) (im ir : ℤ) (itv : Option PyVal)
    (hm : _get_phase_value prob "traj" p "mass" "lbm" (.intIdx 0)
            = .ok (some (.arr1 [im])))
    (ht : _get_phase_value prob "traj" p "t" "min" (.intIdx 0) = .ok itv)
    (hr : _get_phase_value prob "traj" p "distance" "nmi" (.intIdx 0)
            = .ok (some (.arr1 [ir])))
    (h : phaseStep prob st 0 p = .ok st') :
    st'.initial_mass = some (.scalar im) ∧ st'.initial_time = some itv
      ∧ st'.initial_range = some (.scalar ir) := by
  obtain ⟨fb, t, r, st1, h4, h5⟩ := phaseStep_ok_destruct prob st 0 p st' h
  rw [if_pos rfl, readInitials_eq prob p st im ir itv hm ht hr] at h4
  cases h4
  have := readFinals_preserves prob p _ _ h5
  exact ⟨this.2.1, this.2.2.1, this.2.2.2⟩

/-- Every iteration assigns the final trackers from that phase's index
`-1` reads. -/
theorem phaseStep_finals (prob : Prob) (st : LoopState) (idx : Nat)
    (p : String) (st' : LoopState) (fm fr : ℤ) (ftv : Option PyVal)
    (hm : _get_phase_value prob "traj" p "mass" "lbm" (.intIdx (-1))
            = .ok (some (.arr1 [fm])))
    (ht : _get_phase_value prob "traj" p "t" "min" (.intIdx (-1)) = .ok ftv)
    (hr : _get_phase_value prob "traj" p "distance" "nmi" (.intIdx (-1))
            = .ok (some (.arr1 [fr])))
    (h : phaseStep prob st idx p = .ok st') :
    st'.final_mass = some (.scalar fm) ∧ st'.final_time = some ftv
      ∧ st'.final_range = some (.scalar fr) := by
  obtain ⟨fb, t, r, st1, h4, h5⟩ := phaseStep_ok_destruct prob st idx p st' h
  rw [readFinals_eq prob p _ fm fr ftv hm ht hr] at h5
  cases h5
  exact ⟨rfl, rfl, rfl⟩

/-- A successful run over a nonempty phase list decomposes into its first
iteration and the rest. -/
theorem runPhases_ok_cons (prob : Prob) (idx : Nat) (p : String)
    (ps : List String) (st st' : LoopState)
    (h : runPhases prob idx (p :: ps) st = .ok st') :
    ∃ st1, phaseStep prob st idx p = .ok st1
      ∧ runPhases prob (idx + 1) ps st1 = .ok st' := by
  unfold runPhases at h
  cases hs : phaseStep prob st idx p with
  | error e => simp only [hs] at h; exact Except.noConfusion h
  | ok st1 =>
    simp only [hs] at h
    exact ⟨st1, rfl, h⟩

/-- Iterations at positive indices leave the initial trackers unchanged. -/
theorem runPhases_preserves_initials (prob : Prob) :
    ∀ (ps : List String) (idx : Nat) (st st' : LoopState), 1 ≤ idx →
      runPhases prob idx ps st = .ok st' →
      st'.initial_mass = st.initial_mass ∧ st'.initial_time = st.initial_time
        ∧ st'.initial_range = st.initial_range
  | [], _, _, _, _, h => by
      unfold runPhases at h
      cases h
      exact ⟨rfl, rfl, rfl⟩
  | p :: ps, idx, st, st', hidx, h => by
      obtain ⟨st1, hs, hrest⟩ := runPhases_ok_cons prob idx p ps st st' h
      have h1 := phaseStep_preserves_initials prob st idx p st1
        (by omega) hs
      have h2 := runPhases_preserves_initials prob ps (idx + 1) st1 st'
        (by omega) hrest
      exact ⟨h2.1.trans h1.1, h2.2.1.trans h1.2.1, h2.2.2.trans h1.2.2⟩

/-- After a successful run over a nonempty phase list, the final trackers
hold the last phase's index `-1` reads. -/
theorem runPhases_finals (prob : Prob) :
    ∀ (ps : List String) (p : String) (idx : Nat) (st st' : LoopState)
      (fm fr : ℤ) (ftv : Option PyVal),
      _get_phase_value prob "traj" (ps.getLastD p) "mass" "lbm" (.intIdx (-1))
          = .ok (some (.arr1 [fm])) →
      _get_phase_value prob "traj" (ps.getLastD p) "t" "min" (.intIdx (-1))
          = .ok ftv →
      _get_phase_value prob "traj" (ps.getLastD p) "distance" "nmi" (.intIdx (-1))
          = .ok (some (.arr1 [fr])) →
      runPhases prob idx (p :: ps) st = .ok st' →
      st'.final_mass = some (.scalar fm) ∧ st'.final_time = some ftv
        ∧ st'.final_range = some (.scalar fr)
  | [], p, idx, st, st', fm, fr, ftv, hm, ht, hr, h => by
      obtain ⟨st1, hs, hrest⟩ := runPhases_ok_cons prob idx p [] st st' h
      unfold runPhases at hrest
      cases hrest
      exact phaseStep_finals prob st idx p _ fm fr ftv hm ht hr hs
  | p2 :: ps, p, idx, st, st', fm, fr, ftv, hm, ht, hr, h => by
      obtain ⟨st1, hs, hrest⟩ := runPhases_ok_cons prob idx p (p2 :: ps) st st' h
      rw [List.getLastD_cons] at hm ht hr
      exact runPhases_finals prob ps p2 (idx + 1) st1 st' fm fr ftv hm ht hr hrest

/-- A `None` retrieval gives a `None` delta. -/
theorem diff_of_none (prob : Prob) (traj phase var_name units : String)
    (indices : Indices)
    (h : _get_phase_value prob traj phase var_name units indices = .ok none) :
    _get_phase_diff prob traj phase var_name units indices = .ok none := by
  unfold _get_phase_diff
  rw [h]

/-- A fully pinned `idx = 0` iteration computes the explicit state. -/
theorem phaseStep_eq (prob : Prob) (p : String) (st : LoopState)
    (fb tv dv : Option PyVal) (im ir fm fr : ℤ) (itv ftv : Option PyVal)
    (hd1 : _get_phase_diff prob "traj" p "mass" "lbm" (.listIdx [-1, 0]) = .ok fb)
    (hd2 : _get_phase_diff prob "traj" p "t" "min" (.listIdx [0, -1]) = .ok tv)
    (hd3 : _get_phase_diff prob "traj" p "distance" "nmi" (.listIdx [0, -1]) = .ok dv)
    (hm0 : _get_phase_value prob "traj" p "mass" "lbm" (.intIdx 0)
             = .ok (some (.arr1 [im])))
    (ht0 : _get_phase_value prob "traj" p "t" "min" (.intIdx 0) = .ok itv)
    (hr0 : _get_phase_value prob "traj" p "distance" "nmi" (.intIdx 0)
             = .ok (some (.arr1 [ir])))
    (hmF : _get_phase_value prob "traj" p "mass" "lbm" (.intIdx (-1))
             = .ok (some (.arr1 [fm])))
    (htF : _get_phase_value prob "traj" p "t" "min" (.intIdx (-1)) = .ok ftv)
    (hrF : _get_phase_value prob "traj" p "distance" "nmi" (.intIdx (-1))
             = .ok (some (.arr1 [fr]))) :
    phaseStep prob st 0 p = .ok
      { data := dictInsert st.data p (mkSegOutputs fb tv dv),
        initial_mass := some (.scalar im), initial_time := some itv,
        initial_range := some (.scalar ir), final_mass := some (.scalar fm),
        final_time := some ftv, final_range := some (.scalar fr) } := by
  unfold phaseStep
  rw [hd1, hd2, hd3]
  dsimp only
  rw [if_pos rfl, readInitials_eq prob p st im ir itv hm0 ht0 hr0]
  dsimp only
  rw [readFinals_eq prob p _ fm fr ftv hmF htF hrF]

/-- A later iteration whose final-mass read comes back `None` raises
`TypeError` at the `[0]` subscript, aborting the loop. -/
theorem phaseStep_none_mass_raises (prob : Prob) (p : String) (st : LoopState)
    (idx : Nat) (hidx : idx ≠ 0) (fb tv dv : Option PyVal)
    (hd1 : _get_phase_diff prob "traj" p "mass" "lbm" (.listIdx [-1, 0]) = .ok fb)
    (hd2 : _get_phase_diff prob "traj" p "t" "min" (.listIdx [0, -1]) = .ok tv)
    (hd3 : _get_phase_diff prob "traj" p "distance" "nmi" (.listIdx [0, -1]) = .ok dv)
    (hmF : _get_phase_value prob "traj" p "mass" "lbm" (.intIdx (-1)) = .ok none) :
    phaseStep prob st idx p = .error .typeError := by
  unfold phaseStep
  rw [hd1, hd2, hd3]
  dsimp only
  rw [if_neg hidx]
  dsimp only
  unfold readFinals
  rw [hmF]
  rfl

/-- Structure of a successful `mission_report`: the loop succeeded, the six
trackers were assigned, the three total subtractions succeeded, and the
document is the summary header, the totals table, the segments header, and
the per-phase items. -/
theorem mission_report_shape (prob : Prob) (doc : List DocItem)
    (h : mission_report prob = .ok doc) :
    ∃ st' i_m i_r f_m f_r i_t f_t tfb tt tgd,
      runPhases prob 0 prob.phase_info initSt = .ok st'
        ∧ st'.initial_mass = some i_m ∧ st'.initial_time = some i_t
        ∧ st'.initial_range = some i_r ∧ st'.final_mass = some f_m
        ∧ st'.final_time = some f_t ∧ st'.final_range = some f_r
        ∧ PyVal.sub i_m f_m = .ok tfb ∧ pySubO f_t i_t = .ok tt
        ∧ PyVal.sub f_r i_r = .ok tgd
        ∧ doc = .header1 "MISSION SUMMARY"
            :: .table (write_markdown_variable_table (mkTotals tfb tt tgd)
                         totalNames totalMeta)
            :: .header1 "MISSION SEGMENTS" :: segmentItems st'.data := by
  unfold mission_report at h
  cases hrun : runPhases prob 0 prob.phase_info initSt with
  | error e => simp only [hrun] at h; exact Except.noConfusion h
  | ok st' =>
  simp only [hrun] at h
  cases him : st'.initial_mass with
  | none => simp only [him] at h; exact Except.noConfusion h
  | some i_m =>
  cases hit : st'.initial_time with
  | none => simp only [him, hit] at h; exact Except.noConfusion h
  | some i_t =>
  cases hir : st'.initial_range with
  | none => simp only [him, hit, hir] at h; exact Except.noConfusion h
  | some i_r =>
  cases hfm : st'.final_mass with
  | none => simp only [him, hit, hir, hfm] at h; exact Except.noConfusion h
  | some f_m =>
  cases hft : st'.final_time with
  | none => simp only [him, hit, hir, hfm, hft] at h; exact Except.noConfusion h
  | some f_t =>
  cases hfr : st'.final_range with
  | none => simp only [him, hit, hir, hfm, hft, hfr] at h; exact Except.noConfusion h
  | some f_r =>
  simp only [him, hit, hir, hfm, hft, hfr] at h
  cases hsub1 : PyVal.sub i_m f_m with
  | error e => simp only [hsub1] at h; exact Except.noConfusion h
  | ok tfb =>
  simp only [hsub1] at h
  cases hsub2 : pySubO f_t i_t with
  | error e => simp only [hsub2] at h; exact Except.noConfusion h
  | ok tt =>
  simp only [hsub2] at h
  cases hsub3 : PyVal.sub f_r i_r with
  | error e => simp only [hsub3] at h; exact Except.noConfusion h
  | ok tgd =>
  simp only [hsub3] at h
  cases h
  exact ⟨st', i_m, i_r, f_m, f_r, i_t, f_t, tfb, tt, tgd, rfl, him, hit, hir,
    hfm, hft, hfr, hsub1, hsub2, hsub3, rfl⟩

/-- Inserting a fresh key appends it to the key sequence. -/
theorem keys_dictInsert {α : Type} :
    ∀ (d : List (String × α)) (k : String) (v : α),
      k ∉ d.map Prod.fst →
      (dictInsert d k v).map Prod.fst = d.map Prod.fst ++ [k]
  | [], _, _, _ => rfl
  | (k', v') :: rest, k, v, h => by
      simp only [List.map_cons, List.mem_cons] at h
      push_neg at h
      unfold dictInsert
      rw [if_neg (fun he => h.1 he.symm)]
      simp only [List.map_cons, keys_dictInsert rest k v h.2, List.cons_append]

/-- A successful iteration's data dict is the incoming one with the phase's
segment table inserted. -/
theorem phaseStep_data (prob : Prob) (st : LoopState) (idx : Nat) (p : String)
    (st' : LoopState) (h : phaseStep prob st idx p = .ok st') :
    ∃ nv, st'.data = dictInsert st.data p nv := by
  obtain ⟨fb, t, r, st1, h4, h5⟩ := phaseStep_ok_destruct prob st idx p st' h
  have hrf : st'.data = dictInsert st1.data p (mkSegOutputs fb t r) :=
    (readFinals_preserves prob p _ _ h5).1
  by_cases hidx : idx = 0
  · rw [if_pos hidx] at h4
    have hinit : st1.data = st.data := (readInitials_preserves prob p st st1 h4).1
    exact ⟨mkSegOutputs fb t r, by rw [hrf, hinit]⟩
  · rw [if_neg hidx] at h4
    cases h4
    exact ⟨mkSegOutputs fb t r, hrf⟩

/-- A successful run over distinct, fresh phases appends them to the data
dict's keys in order. -/
theorem runPhases_keys (prob : Prob) :
    ∀ (ps : List String) (idx : Nat) (st st' : LoopState),
      runPhases prob idx ps st = .ok st' → ps.Nodup →
      (∀ q ∈ ps, q ∉ st.data.map Prod.fst) →
      st'.data.map Prod.fst = st.data.map Prod.fst ++ ps
  | [], _, st, st', h, _, _ => by
      unfold runPhases at h
      cases h
      simp
  | p :: ps, idx, st, st', h, hnd, hfresh => by
      obtain ⟨st1, hs, hrest⟩ := runPhases_ok_cons prob idx p ps st st' h
      obtain ⟨nv, hdata⟩ := phaseStep_data prob st idx p st1 hs
      have hkeys1 : st1.data.map Prod.fst = st.data.map Prod.fst ++ [p] := by
        rw [hdata]
        exact keys_dictInsert st.data p nv (hfresh p (List.mem_cons_self p ps))
      have hnd' := List.nodup_cons.mp hnd
      have hfresh' : ∀ q ∈ ps, q ∉ st1.data.map Prod.fst := by
        intro q hq
        rw [hkeys1]
        simp only [List.mem_append, List.mem_singleton]
        push_neg
        exact ⟨hfresh q (List.mem_cons_of_mem p hq), fun he => hnd'.1 (he ▸ hq)⟩
      have htail := runPhases_keys prob ps (idx + 1) st1 st' hrest hnd'.2 hfresh'
      rw [htail, hkeys1, List.append_assoc, List.singleton_append]

/-- Every segments body the report builds passes the unit check. -/
theorem segmentItems_unitsOK (d : List (String × NamedValues)) :
    (segmentItems d).all itemUnitsOK = true := by
  induction d with
  | nil => rfl
  | cons pr rest ih =>
      obtain ⟨p, nv⟩ := pr
      simp only [segmentItems, List.all_cons, ih, Bool.and_true]
      rfl

/-- The segments body has the required header/table shape for exactly the
data dict's keys. -/
theorem segItemsShape_of_data (d : List (String × NamedValues)) :
    segItemsShape (d.map Prod.fst) (segmentItems d) := by
  induction d with
  | nil => trivial
  | cons pr rest ih =>
      obtain ⟨p, nv⟩ := pr
      exact ⟨rfl, ⟨_, _, _, rfl⟩, ih⟩

/-! ### Claim theorems -/

/-- C1 (corrected): in `_get_phase_value` the fallback chain is: time-series
path first; on `KeyError`, the scalar path; if the scalar read raises
`TypeError`, the time-series `time` variable is read instead and its outcome
— success or exception — is returned as-is; and when the *scalar* read fails
with `KeyError` the result is Python `None`.  (A missing-path failure of the
substituted time read is not caught and propagates as an exception; see the
counterexample.) -/
theorem C1_value_fallback_chain (prob : Prob)
    (traj phase var_name units : String) (indices : Indices) :
    (∀ v, prob.get_val (tsPath traj phase var_name) units indices = .ok v →
        _get_phase_value prob traj phase var_name units indices = .ok (some v)) ∧
    (prob.get_val (tsPath traj phase var_name) units indices = .error .keyError →
      ((∀ v, prob.get_val (scPath traj phase var_name) units indices = .ok v →
          _get_phase_value prob traj phase var_name units indices = .ok (some v)) ∧
       (prob.get_val (scPath traj phase var_name) units indices = .error .typeError →
          _get_phase_value prob traj phase var_name units indices =
            Except.map some (prob.get_val (tsPath traj phase "time") units indices)) ∧
       (prob.get_val (scPath traj phase var_name) units indices = .error .keyError →
          _get_phase_value prob traj phase var_name units indices = .ok none))) := by
  constructor
  · intro v hv
    unfold _get_phase_value
    rw [hv]
  · intro hts
    refine ⟨?_, ?_, ?_⟩
    · intro v hv
      unfold _get_phase_value
      rw [hts, hv]
    · intro hsc
      unfold _get_phase_value
      rw [hts, hsc]
    · intro hsc
      unfold _get_phase_value
      rw [hts, hsc]

/-- C1 (witness): on a concrete problem where both the time-series path and
the scalar path for `altitude` are missing, the retrieved value is `None`. -/
theorem C1_value_fallback_chain_witness :
    _get_phase_value okProb "traj" "climb" "altitude" "ft" (.intIdx 0) = .ok none :=
  ((C1_value_fallback_chain okProb "traj" "climb" "altitude" "ft" (.intIdx 0)).2
      rfl).2.2 rfl

/-- C1 (counterexample): on a concrete problem where the time-series mass
path is missing, the scalar mass read raises `TypeError`, and the
substituted time-series `time` path is missing too, `_get_phase_value`
raises `KeyError` instead of returning `None` — the claim's "the result is
null (None) rather than an exception" fails for the time-substitution
fallback. -/
theorem C1_counterexample :
    c1prob.get_val (tsPath "traj" "climb" "mass") "lbm" (.intIdx 0) = .error .keyError
      ∧ c1prob.get_val (scPath "traj" "climb" "mass") "lbm" (.intIdx 0) = .error .typeError
      ∧ c1prob.get_val (tsPath "traj" "climb" "time") "lbm" (.intIdx 0) = .error .keyError
      ∧ _get_phase_value c1prob "traj" "climb" "mass" "lbm" (.intIdx 0)
          = .error .keyError := by
  refine ⟨rfl, rfl, rfl, rfl⟩

/-- C3 (confirmed): the per-phase delta is the retrieved array's element at
index -1 minus its element at index 0 (in whichever index order the
retrieval was requested); if the difference is an array (the 2-D retrieval
case) only its first element is used; and a `None` retrieval yields a
`None` delta. -/
theorem C3_phase_diff (prob : Prob) (traj phase var_name units : String)
    (indices : Indices) :
    (_get_phase_value prob traj phase var_name units indices = .ok none →
       _get_phase_diff prob traj phase var_name units indices = .ok none) ∧
    (∀ x xs y,
       _get_phase_value prob traj phase var_name units indices
           = .ok (some (.arr1 (x :: xs))) →
       (x :: xs).getLast? = some y →
       _get_phase_diff prob traj phase var_name units indices
           = .ok (some (.scalar (y - x)))) ∧
    (∀ a as rs b bs,
       _get_phase_value prob traj phase var_name units indices
           = .ok (some (.arr2 ((a :: as) :: rs))) →
       ((a :: as) :: rs).getLast? = some (b :: bs) →
       bs.length = as.length →
       _get_phase_diff prob traj phase var_name units indices
           = .ok (some (.scalar (b - a)))) := by
  refine ⟨?_, ?_, ?_⟩
  · intro h
    unfold _get_phase_diff
    rw [h]
  · intro x xs y h hlast
    unfold _get_phase_diff
    rw [h]
    simp only [PyVal.getItem, pyIndexList_neg_one, hlast, pyIndexList_zero]
    rfl
  · intro a as rs b bs h hlast hlen
    unfold _get_phase_diff
    rw [h]
    simp only [PyVal.getItem, pyIndexList_neg_one, hlast, pyIndexList_zero]
    simp only [PyVal.sub, List.length_cons, hlen, if_true]
    rfl

/-- C3 (witness): on the concrete two-phase problem, the climb fuel-burn
delta requested at indices `[-1, 0]` retrieves the 2-D pair
`[[800], [1000]]` and the delta is `1000 - 800 = 200`. -/
theorem C3_phase_diff_witness :
    _get_phase_diff okProb "traj" "climb" "mass" "lbm" (.listIdx [-1, 0])
      = .ok (some (.scalar 200)) := by
  have h := (C3_phase_diff okProb "traj" "climb" "mass" "lbm"
      (.listIdx [-1, 0])).2.2 800 [] [[1000]] 1000 []
  rw [show ((1000 : ℤ) - 800 = 200) from by norm_num] at h
  exact h rfl rfl rfl

/-- C8 (confirmed): the subsystem report dispatcher's folder creation puts
the `subsystems` subfolder under the reports directory when it is absent,
leaves the filesystem unchanged (without failing) when it already exists,
and is idempotent. -/
theorem C8_subsystem_folder_idempotent (fs : List String) (reports_dir : String) :
    (reports_dir ++ "/subsystems") ∈ subsystem_report_dirs fs reports_dir
      ∧ ((reports_dir ++ "/subsystems") ∈ fs →
           subsystem_report_dirs fs reports_dir = fs)
      ∧ subsystem_report_dirs (subsystem_report_dirs fs reports_dir) reports_dir
          = subsystem_report_dirs fs reports_dir := by
  unfold subsystem_report_dirs mkdir_exist_ok
  by_cases h : (reports_dir ++ "/subsystems") ∈ fs
  · simp [h]
  · simp [h]

/-- C8 (witness): on an empty filesystem with reports root `"reports"`,
creating the folder twice equals creating it once. -/
theorem C8_subsystem_folder_idempotent_witness :
    subsystem_report_dirs (subsystem_report_dirs [] "reports") "reports"
      = subsystem_report_dirs [] "reports" :=
  (C8_subsystem_folder_idempotent [] "reports").2.2

/-- C9 (confirmed): `mission_report` is deterministic and stateless — it
reads only `get_val` and `phase_info` from the problem and keeps no state of
its own, so two problems answering every `get_val` query identically and
carrying the same `phase_info` yield identical report content. -/
theorem C9_mission_report_deterministic (p1 p2 : Prob)
    (hg : ∀ path units indices,
            p1.get_val path units indices = p2.get_val path units indices)
    (hp : p1.phase_info = p2.phase_info) :
    mission_report p1 = mission_report p2 := by
  have hfun : p1.get_val = p2.get_val :=
    funext fun a => funext fun b => funext fun c => hg a b c
  have : p1 = p2 := by
    cases p1
    cases p2
    simp only at hfun hp
    rw [hfun, hp]
  rw [this]

/-- C9 (witness): two structurally identical copies of the concrete
two-phase problem produce the same report. -/
theorem C9_mission_report_deterministic_witness :
    mission_report (Prob.mk okGet ["climb", "cruise"])
      = mission_report okProb :=
  C9_mission_report_deterministic (Prob.mk okGet ["climb", "cruise"]) okProb
    (fun _ _ _ => rfl) rfl

/-- C10 (confirmed): with an empty phase sequence `mission_report` raises
`NameError` (the totals reference loop-assigned locals that were never
assigned); the exception occurs before the report file is opened, so no
`mission_summary.md` — not even a partial one — is produced (an `.ok`
document is never returned). -/
theorem C10_empty_phase_info_raises (prob : Prob)
    (hp : prob.phase_info = []) :
    mission_report prob = .error .nameError := by
  unfold mission_report
  rw [hp]
  rfl

/-- C10 (witness): the concrete problem with no phases raises `NameError`. -/
theorem C10_empty_phase_info_raises_witness :
    mission_report emptyProb = .error .nameError :=
  C10_empty_phase_info_raises emptyProb rfl

/-- C2 (confirmed): for a non-empty phase sequence the totals table is
computed from the first phase's index-0 reads and the last phase's index
`-1` reads: Total Fuel Burn = initial mass − final mass, Total Time =
final time − initial time, Total Ground Distance = final distance −
initial distance. -/
theorem C2_mission_totals (prob : Prob) (doc : List DocItem) (p : String)
    (ps : List String) (im it ir fm ft fr : ℤ)
    (hp : prob.phase_info = p :: ps)
    (him : _get_phase_value prob "traj" p "mass" "lbm" (.intIdx 0)
             = .ok (some (.arr1 [im])))
    (hit : _get_phase_value prob "traj" p "t" "min" (.intIdx 0)
             = .ok (some (.scalar it)))
    (hir : _get_phase_value prob "traj" p "distance" "nmi" (.intIdx 0)
             = .ok (some (.arr1 [ir])))
    (hfm : _get_phase_value prob "traj" (ps.getLastD p) "mass" "lbm" (.intIdx (-1))
             = .ok (some (.arr1 [fm])))
    (hft : _get_phase_value prob "traj" (ps.getLastD p) "t" "min" (.intIdx (-1))
             = .ok (some (.scalar ft)))
    (hfr : _get_phase_value prob "traj" (ps.getLastD p) "distance" "nmi" (.intIdx (-1))
             = .ok (some (.arr1 [fr])))
    (hok : mission_report prob = .ok doc) :
    doc.get? 1 = some (.table
      [("Total Fuel Burn", some (.scalar (im - fm)), "lbm"),
       ("Total Time", some (.scalar (ft - it)), "min"),
       ("Total Ground Distance", some (.scalar (fr - ir)), "nmi")]) := by
  obtain ⟨st', i_m, i_r, f_m, f_r, i_t, f_t, tfb, tt, tgd, hrun, hsim, hsit,
    hsir, hsfm, hsft, hsfr, hsub1, hsub2, hsub3, hdoc⟩ :=
    mission_report_shape prob doc hok
  rw [hp] at hrun
  obtain ⟨st1, hstep, hrest⟩ := runPhases_ok_cons prob 0 p ps initSt st' hrun
  have hinit := phaseStep_initials prob initSt p st1 im ir
    (some (.scalar it)) him hit hir hstep
  have hpres := runPhases_preserves_initials prob ps 1 st1 st'
    (le_refl 1) hrest
  have hfin := runPhases_finals prob ps p 0 initSt st' fm fr
    (some (.scalar ft)) hfm hft hfr hrun
  have e1 : i_m = PyVal.scalar im := by
    have h' := hpres.1.trans hinit.1
    rw [hsim] at h'
    exact Option.some.inj h'
  have e2 : i_t = some (PyVal.scalar it) := by
    have h' := hpres.2.1.trans hinit.2.1
    rw [hsit] at h'
    exact Option.some.inj h'
  have e3 : i_r = PyVal.scalar ir := by
    have h' := hpres.2.2.trans hinit.2.2
    rw [hsir] at h'
    exact Option.some.inj h'
  have e4 : f_m = PyVal.scalar fm := by
    have h' := hfin.1
    rw [hsfm] at h'
    exact Option.some.inj h'
  have e5 : f_t = some (PyVal.scalar ft) := by
    have h' := hfin.2.1
    rw [hsft] at h'
    exact Option.some.inj h'
  have e6 : f_r = PyVal.scalar fr := by
    have h' := hfin.2.2
    rw [hsfr] at h'
    exact Option.some.inj h'
  subst e1 e2 e3 e4 e5 e6
  simp only [PyVal.sub] at hsub1 hsub3
  simp only [pySubO, PyVal.sub] at hsub2
  cases hsub1
  cases hsub2
  cases hsub3
  rw [hdoc]
  rfl

/-- C2 (witness): on the concrete two-phase problem the totals table reads
`1000 − 600` lbm, `30 − 0` min, `500 − 0` nmi. -/
theorem C2_mission_totals_witness :
    okDoc.get? 1 = some (.table
      [("Total Fuel Burn", some (.scalar ((1000 : ℤ) - 600)), "lbm"),
       ("Total Time", some (.scalar ((30 : ℤ) - 0)), "min"),
       ("Total Ground Distance", some (.scalar ((500 : ℤ) - 0)), "nmi")]) :=
  C2_mission_totals okProb okDoc "climb" ["cruise"] 1000 0 0 600 30 500
    rfl rfl rfl rfl rfl rfl rfl (by rfl)

/-- C5 (confirmed): with a single phase, the totals table's values are
syntactically the same deltas as the phase's own segment table: Total Fuel
Burn = the phase's Fuel Burn, Total Time = its Elapsed Time, Total Ground
Distance = its Ground Distance. -/
theorem C5_single_phase_totals (prob : Prob) (p : String)
    (m0 mF t0 tF d0 dF : ℤ)
    (hp : prob.phase_info = [p])
    (h1 : _get_phase_value prob "traj" p "mass" "lbm" (.listIdx [-1, 0])
            = .ok (some (.arr2 [[mF], [m0]])))
    (h2 : _get_phase_value prob "traj" p "t" "min" (.listIdx [0, -1])
            = .ok (some (.arr1 [t0, tF])))
    (h3 : _get_phase_value prob "traj" p "distance" "nmi" (.listIdx [0, -1])
            = .ok (some (.arr2 [[d0], [dF]])))
    (h4 : _get_phase_value prob "traj" p "mass" "lbm" (.intIdx 0)
            = .ok (some (.arr1 [m0])))
    (h5 : _get_phase_value prob "traj" p "t" "min" (.intIdx 0)
            = .ok (some (.scalar t0)))
    (h6 : _get_phase_value prob "traj" p "distance" "nmi" (.intIdx 0)
            = .ok (some (.arr1 [d0])))
    (h7 : _get_phase_value prob "traj" p "mass" "lbm" (.intIdx (-1))
            = .ok (some (.arr1 [mF])))
    (h8 : _get_phase_value prob "traj" p "t" "min" (.intIdx (-1))
            = .ok (some (.scalar tF)))
    (h9 : _get_phase_value prob "traj" p "distance" "nmi" (.intIdx (-1))
            = .ok (some (.arr1 [dF]))) :
    mission_report prob = .ok
      [.header1 "MISSION SUMMARY",
       .table [("Total Fuel Burn", some (.scalar (m0 - mF)), "lbm"),
               ("Total Time", some (.scalar (tF - t0)), "min"),
               ("Total Ground Distance", some (.scalar (dF - d0)), "nmi")],
       .header1 "MISSION SEGMENTS",
       .header2 p,
       .table [("Fuel Burn", some (.scalar (m0 - mF)), "lbm"),
               ("Elapsed Time", some (.scalar (tF - t0)), "min"),
               ("Ground Distance", some (.scalar (dF - d0)), "nmi")]] := by
  have hd1 := diff_of_arr2_pair prob "traj" p "mass" "lbm" (.listIdx [-1, 0])
    mF m0 h1
  have hd2 := diff_of_arr1_pair prob "traj" p "t" "min" (.listIdx [0, -1])
    t0 tF h2
  have hd3 := diff_of_arr2_pair prob "traj" p "distance" "nmi" (.listIdx [0, -1])
    d0 dF h3
  have hstep := phaseStep_eq prob p initSt
    (some (.scalar (m0 - mF))) (some (.scalar (tF - t0))) (some (.scalar (dF - d0)))
    m0 d0 mF dF (some (.scalar t0)) (some (.scalar tF))
    hd1 hd2 hd3 h4 h5 h6 h7 h8 h9
  have hrun : runPhases prob 0 [p] initSt = .ok
      { data := dictInsert initSt.data p (mkSegOutputs
          (some (.scalar (m0 - mF))) (some (.scalar (tF - t0)))
          (some (.scalar (dF - d0)))),
        initial_mass := some (.scalar m0),
        initial_time := some (some (.scalar t0)),
        initial_range := some (.scalar d0),
        final_mass := some (.scalar mF),
        final_time := some (some (.scalar tF)),
        final_range := some (.scalar dF) } := by
    unfold runPhases
    rw [hstep]
    rfl
  unfold mission_report
  rw [hp, hrun]
  rfl

/-- C5 (witness): on the single-phase concrete problem the totals equal the
climb segment's own deltas. -/
theorem C5_single_phase_totals_witness :
    mission_report okProb1 = .ok
      [.header1 "MISSION SUMMARY",
       .table [("Total Fuel Burn", some (.scalar ((1000 : ℤ) - 800)), "lbm"),
               ("Total Time", some (.scalar ((10 : ℤ) - 0)), "min"),
               ("Total Ground Distance", some (.scalar ((100 : ℤ) - 0)), "nmi")],
       .header1 "MISSION SEGMENTS",
       .header2 "climb",
       .table [("Fuel Burn", some (.scalar ((1000 : ℤ) - 800)), "lbm"),
               ("Elapsed Time", some (.scalar ((10 : ℤ) - 0)), "min"),
               ("Ground Distance", some (.scalar ((100 : ℤ) - 0)), "nmi")]] :=
  C5_single_phase_totals okProb1 "climb" 1000 800 0 10 0 100
    rfl rfl rfl rfl rfl rfl rfl rfl rfl rfl

/-- C4 (corrected): when one (non-first) phase's mass is absent through both
fallback paths, the phase's fuel-burn delta is indeed `None` and is the
value stored for its Fuel Burn entry, but report generation does not
complete: the same iteration's unguarded final-mass subscript
(`_get_phase_value(...)[0]` on `None`) raises `TypeError`, the loop aborts,
and no report document is produced for any phase. -/
theorem C4_missing_mass_crashes (prob : Prob) (p1 p2 : String)
    (m0 mF t0 tF d0 dF : ℤ) (tv2 dv2 : Option PyVal)
    (hp : prob.phase_info = [p1, p2])
    (h1 : _get_phase_value prob "traj" p1 "mass" "lbm" (.listIdx [-1, 0])
            = .ok (some (.arr2 [[mF], [m0]])))
    (h2 : _get_phase_value prob "traj" p1 "t" "min" (.listIdx [0, -1])
            = .ok (some (.arr1 [t0, tF])))
    (h3 : _get_phase_value prob "traj" p1 "distance" "nmi" (.listIdx [0, -1])
            = .ok (some (.arr2 [[d0], [dF]])))
    (h4 : _get_phase_value prob "traj" p1 "mass" "lbm" (.intIdx 0)
            = .ok (some (.arr1 [m0])))
    (h5 : _get_phase_value prob "traj" p1 "t" "min" (.intIdx 0)
            = .ok (some (.scalar t0)))
    (h6 : _get_phase_value prob "traj" p1 "distance" "nmi" (.intIdx 0)
            = .ok (some (.arr1 [d0])))
    (h7 : _get_phase_value prob "traj" p1 "mass" "lbm" (.intIdx (-1))
            = .ok (some (.arr1 [mF])))
    (h8 : _get_phase_value prob "traj" p1 "t" "min" (.intIdx (-1))
            = .ok (some (.scalar tF)))
    (h9 : _get_phase_value prob "traj" p1 "distance" "nmi" (.intIdx (-1))
            = .ok (some (.arr1 [dF])))
    (hm2 : _get_phase_value prob "traj" p2 "mass" "lbm" (.listIdx [-1, 0])
             = .ok none)
    (ht2 : _get_phase_diff prob "traj" p2 "t" "min" (.listIdx [0, -1])
             = .ok tv2)
    (hd2 : _get_phase_diff prob "traj" p2 "distance" "nmi" (.listIdx [0, -1])
             = .ok dv2)
    (hm2F : _get_phase_value prob "traj" p2 "mass" "lbm" (.intIdx (-1))
              = .ok none) :
    _get_phase_diff prob "traj" p2 "mass" "lbm" (.listIdx [-1, 0]) = .ok none
      ∧ mission_report prob = .error .typeError := by
  have hfb2 := diff_of_none prob "traj" p2 "mass" "lbm" (.listIdx [-1, 0]) hm2
  refine ⟨hfb2, ?_⟩
  have hstep1 := phaseStep_eq prob p1 initSt
    (some (.scalar (m0 - mF))) (some (.scalar (tF - t0))) (some (.scalar (dF - d0)))
    m0 d0 mF dF (some (.scalar t0)) (some (.scalar tF))
    (diff_of_arr2_pair prob "traj" p1 "mass" "lbm" (.listIdx [-1, 0]) mF m0 h1)
    (diff_of_arr1_pair prob "traj" p1 "t" "min" (.listIdx [0, -1]) t0 tF h2)
    (diff_of_arr2_pair prob "traj" p1 "distance" "nmi" (.listIdx [0, -1]) d0 dF h3)
    h4 h5 h6 h7 h8 h9
  have hstep2 := phaseStep_none_mass_raises prob p2
    { data := dictInsert initSt.data p1 (mkSegOutputs
        (some (.scalar (m0 - mF))) (some (.scalar (tF - t0)))
        (some (.scalar (dF - d0)))),
      initial_mass := some (.scalar m0), initial_time := some (some (.scalar t0)),
      initial_range := some (.scalar d0), final_mass := some (.scalar mF),
      final_time := some (some (.scalar tF)), final_range := some (.scalar dF) }
    1 (by omega) none tv2 dv2 hfb2 ht2 hd2 hm2F
  have hrun : runPhases prob 0 [p1, p2] initSt = .error .typeError := by
    unfold runPhases
    rw [hstep1]
    dsimp only
    unfold runPhases
    rw [hstep2]
  unfold mission_report
  rw [hp, hrun]

/-- C4 (witness): on the concrete problem with cruise mass missing, the
cruise fuel-burn delta is `None` yet `mission_report` raises `TypeError`. -/
theorem C4_missing_mass_crashes_witness :
    _get_phase_diff c4prob "traj" "cruise" "mass" "lbm" (.listIdx [-1, 0]) = .ok none
      ∧ mission_report c4prob = .error .typeError :=
  C4_missing_mass_crashes c4prob "climb" "cruise" 1000 800 0 10 0 100
    (some (.scalar (30 - 10))) (some (.scalar (500 - 100)))
    rfl rfl rfl rfl rfl rfl rfl rfl rfl rfl rfl rfl rfl rfl

/-- C4 (counterexample): on the concrete problem where both mass paths of
the `cruise` phase are missing, report generation does not complete — it
raises `TypeError` instead of producing a document with entries for the
other phases. -/
theorem C4_counterexample :
    c4prob.get_val (tsPath "traj" "cruise" "mass") "lbm" (.intIdx (-1))
        = .error .keyError
      ∧ c4prob.get_val (scPath "traj" "cruise" "mass") "lbm" (.intIdx (-1))
          = .error .keyError
      ∧ mission_report c4prob = .error .typeError :=
  ⟨rfl, rfl, rfl⟩

/-- C6 (confirmed, for distinct phase names): a successful report document
is exactly a `MISSION SUMMARY` header, the three-row totals table
(Total Fuel Burn [lbm], Total Time [min], Total Ground Distance [nmi]), a
`MISSION SEGMENTS` header, and then — in `phase_info` order — one `##`
header plus one three-row table (Fuel Burn [lbm], Elapsed Time [min],
Ground Distance [nmi]) per phase. -/
theorem C6_document_structure (prob : Prob) (doc : List DocItem)
    (hok : mission_report prob = .ok doc) (hnd : prob.phase_info.Nodup) :
    ∃ tRows segItems,
      doc = .header1 "MISSION SUMMARY" :: .table tRows
              :: .header1 "MISSION SEGMENTS" :: segItems
        ∧ totalsRowsShape tRows ∧ segItemsShape prob.phase_info segItems := by
  obtain ⟨st', i_m, i_r, f_m, f_r, i_t, f_t, tfb, tt, tgd, hrun, hsim, hsit,
    hsir, hsfm, hsft, hsfr, hsub1, hsub2, hsub3, hdoc⟩ :=
    mission_report_shape prob doc hok
  have hkeys : st'.data.map Prod.fst = prob.phase_info := by
    have h' := runPhases_keys prob prob.phase_info 0 initSt st' hrun hnd
      (by intro q hq; simp [initSt])
    simpa [initSt] using h'
  refine ⟨_, segmentItems st'.data, hdoc, ⟨some tfb, some tt, some tgd, rfl⟩, ?_⟩
  rw [← hkeys]
  exact segItemsShape_of_data st'.data

/-- C6 (witness): the concrete two-phase report document has the required
structure for phases `[climb, cruise]`. -/
theorem C6_document_structure_witness :
    ∃ tRows segItems,
      okDoc = .header1 "MISSION SUMMARY" :: .table tRows
                :: .header1 "MISSION SEGMENTS" :: segItems
        ∧ totalsRowsShape tRows ∧ segItemsShape okProb.phase_info segItems :=
  C6_document_structure okProb okDoc (by rfl) (by decide)

/-- C7 (confirmed): every table row of a produced report document carries a
non-empty unit string equal to its metric's fixed unit (`lbm` for the mass
rows, `min` for the time rows, `nmi` for the distance rows); no row is
rendered unitless. -/
theorem C7_units_fixed (prob : Prob) (doc : List DocItem)
    (hok : mission_report prob = .ok doc) :
    docUnitsOK doc = true := by
  obtain ⟨st', i_m, i_r, f_m, f_r, i_t, f_t, tfb, tt, tgd, hrun, hsim, hsit,
    hsir, hsfm, hsft, hsfr, hsub1, hsub2, hsub3, hdoc⟩ :=
    mission_report_shape prob doc hok
  rw [hdoc]
  unfold docUnitsOK
  simp only [List.all_cons, segmentItems_unitsOK st'.data, Bool.and_true]
  rfl

/-- C7 (witness): the concrete two-phase report document passes the unit
check. -/
theorem C7_units_fixed_witness : docUnitsOK okDoc = true :=
  C7_units_fixed okProb okDoc (by rfl)
